import Mathlib

/-!
Verification of the token-implication derivation engine of `postgres_lsp`.

The Rust crate `crates/codegen` generates, from the grammar descriptor
(`crates/parser/proto/source.proto`), two pieces of code:

* `src/get_node_properties.rs` emits the `TokenProperty` model and the
  function `get_node_properties`, which derives the ordered implied-token
  sequence of one AST node instance: a per-node-type custom rule pass
  followed by a generic pass over the node's non-repeated string fields.
* `src/lib.rs` emits the unified `SyntaxKind` classification enumeration
  (custom structural names, then node names, then token names, with
  cross-category name collisions dropped by priority), and the token-code
  classifier `new_from_pg_query_token`.

This file shallowly embeds the *generated* code: Rust `panic!` / `assert!`
paths become `Except.error`, vector pushes become list appends in statement
order, and Rust `match` over integer discriminants becomes an equality
chain in pattern order.  The grammar descriptor itself is external input
data; where a concrete descriptor is needed it is modelled from the spec
(see `proto0`).
-/

namespace PgCodegen

/-- The syntax kinds referenced by the custom rule table in
`get_node_properties.rs` (token kinds such as `Token::Select`) together
with the kinds used by the leaf-node conversions (`Iconst`, `TrueP`,
`FalseP`).  In the generated code these are variants of the unified
`SyntaxKind` enum; only distinctness of the variants matters here. -/
inductive SyntaxKind where
  | Select | Distinct | Values | From | Where | GroupP | By
  | And | Or | Not
  | Join | On | InnerP | Left | Full | Right
  | As | Ascii61 | Collate | Any | InP
  | Window | Partition | Ascii42 | Filter | Over
  | CurrentRole | CurrentUser
  | Order | Asc | Desc | NullP
  | Alter | Table | Column | Set | Default | AddP | TypeP | To
  | Create | Policy | Using | With | Check
  | Copy | Rename | Primary | Key | References
  | Insert | Into | DeleteP | View | Replace | Tablespace
  | IfP | Exists | Of | For
  | Case | EndP | Else | Is | Function | Returns
  | OutP | Inout | Variadic | EqualsGreater | When | Then | Typecast
  | Iconst | TrueP | FalseP
deriving DecidableEq, Repr

/-- `TokenProperty`: one implied token, an optional literal spelling and an
optional symbolic kind (generated struct in `get_node_properties.rs`). -/
structure TokenProperty where
  value : Option String
  kind : Option SyntaxKind
deriving DecidableEq, Repr

/-- `TokenProperty::new`: panics (here: `Except.error`) when both fields
are absent, otherwise builds the structure from its arguments. -/
def TokenProperty.new (value : Option String) (kind : Option SyntaxKind) :
    Except String TokenProperty :=
  if value.isNone && kind.isNone then
    .error "TokenProperty must have either value or kind"
  else
    .ok { value := value, kind := kind }

/-- `impl From<String> for TokenProperty`: asserts the string is non-empty
(else a fatal error), then stores the lower-cased spelling with no kind. -/
def TokenProperty.fromString (value : String) : Except String TokenProperty :=
  if value.length > 0 then
    .ok { value := some value.toLower, kind := none }
  else
    .error "String property value has length 0"

/-- `impl From<Token> for TokenProperty` (and `From<SyntaxKind>`): kind
only, no spelling. -/
def TokenProperty.fromToken (kind : SyntaxKind) : TokenProperty :=
  { value := none, kind := some kind }

/-- `impl From<&pg_query::protobuf::Integer> for TokenProperty`. -/
def TokenProperty.fromInteger (ival : Int) : TokenProperty :=
  { value := some (toString ival), kind := some SyntaxKind.Iconst }

/-- `impl From<&pg_query::protobuf::Boolean> for TokenProperty`. -/
def TokenProperty.fromBoolean (boolval : Bool) : TokenProperty :=
  { value := some (toString boolval)
    kind := some (match boolval with
      | true => SyntaxKind.TrueP
      | false => SyntaxKind.FalseP) }

/-- Scalar field types of the grammar descriptor
(`pg_query_proto_parser::FieldType`); the generator only distinguishes
`string` from the rest. -/
inductive FieldType where
  | string | int32 | int64 | uint32 | uint64 | float64 | bool | enumCode | message
deriving DecidableEq, Repr

/-- One field of a grammar node descriptor. -/
structure Field where
  name : String
  field_type : FieldType
  repeated : Bool
deriving DecidableEq, Repr

/-- A child-node reference as inspected by the `FuncCall` custom rule
(`if let NodeEnum::String(n) = node`): either a `String` leaf node with its
`sval`, or any other node variant. -/
inductive NodeRef where
  | stringNode (sval : String)
  | otherNode
deriving DecidableEq, Repr

/-- The AST node instance, restricted to the variants with entries in the
`custom_handlers` rule table of `get_node_properties.rs` (plus the
`String` leaf).  Repeated child lists are carried as their length and
optional children as their presence, since the handlers read only
`.len()` and `.is_some()`; `FuncCall.funcname` keeps its elements because
its handler inspects `funcname[0].node`. -/
inductive NodeEnum where
  | selectStmt (distinct_clause : Nat) (values_lists : Nat) (from_clause : Nat)
      (where_clause : Bool) (group_clause : Nat)
  | boolExpr (boolop : Int)
  | joinExpr (jointype : Int)
  | resTarget (name : String)
  | integer (ival : Int)
  | defElem (defnamespace : String) (defname : String) (defaction : Int)
  | alias (aliasname : String)
  | collateClause
  | aExpr (kind : Int)
  | windowDef (name : String) (refname : String) (partition_clause : Nat)
      (order_clause : Nat)
  | boolean (boolval : Bool)
  | aStar
  | funcCall (funcname : List (Option NodeRef)) (args : Nat)
      (agg_filter : Bool) (over : Bool)
  | sqlvalueFunction (op : Int)
  | sortBy (sortby_dir : Int)
  | aConst (isnull : Bool)
  | alterTableStmt
  | alterTableCmd (subtype : Int) (name : String)
  | variableSetStmt (kind : Int) (name : String)
  | createPolicyStmt (policy_name : String) (roles : Nat) (qual : Bool)
      (with_check : Bool)
  | copyStmt (filename : String)
  | renameStmt (subname : String) (newname : String)
  | constraint (contype : Int) (conname : String)
  | partitionSpec (strategy : String)
  | insertStmt
  | deleteStmt (where_clause : Bool) (using_clause : Nat)
  | viewStmt (query : Bool) (replace : Bool)
  | createStmt (tablespacename : String) (options : Nat) (if_not_exists : Bool)
      (partbound : Bool)
  | partitionBoundSpec (strategy : String)
  | caseExpr (defresult : Bool)
  | nullTest (nulltesttype : Int)
  | createFunctionStmt (replace : Bool) (return_type : Bool)
  | functionParameter (name : String) (mode : Int) (defexpr : Bool)
  | namedArgExpr (name : String)
  | caseWhen
  | typeCast
  | string (sval : String)
deriving DecidableEq, Repr

/-- The node-type name used to key the grammar descriptor. -/
def nodeName : NodeEnum → String
  | .selectStmt _ _ _ _ _ => "SelectStmt"
  | .boolExpr _ => "BoolExpr"
  | .joinExpr _ => "JoinExpr"
  | .resTarget _ => "ResTarget"
  | .integer _ => "Integer"
  | .defElem _ _ _ => "DefElem"
  | .alias _ => "Alias"
  | .collateClause => "CollateClause"
  | .aExpr _ => "AExpr"
  | .windowDef _ _ _ _ => "WindowDef"
  | .boolean _ => "Boolean"
  | .aStar => "AStar"
  | .funcCall _ _ _ _ => "FuncCall"
  | .sqlvalueFunction _ => "SqlvalueFunction"
  | .sortBy _ => "SortBy"
  | .aConst _ => "AConst"
  | .alterTableStmt => "AlterTableStmt"
  | .alterTableCmd _ _ => "AlterTableCmd"
  | .variableSetStmt _ _ => "VariableSetStmt"
  | .createPolicyStmt _ _ _ _ => "CreatePolicyStmt"
  | .copyStmt _ => "CopyStmt"
  | .renameStmt _ _ => "RenameStmt"
  | .constraint _ _ => "Constraint"
  | .partitionSpec _ => "PartitionSpec"
  | .insertStmt => "InsertStmt"
  | .deleteStmt _ _ => "DeleteStmt"
  | .viewStmt _ _ => "ViewStmt"
  | .createStmt _ _ _ _ => "CreateStmt"
  | .partitionBoundSpec _ => "PartitionBoundSpec"
  | .caseExpr _ => "CaseExpr"
  | .nullTest _ => "NullTest"
  | .createFunctionStmt _ _ => "CreateFunctionStmt"
  | .functionParameter _ _ _ => "FunctionParameter"
  | .namedArgExpr _ => "NamedArgExpr"
  | .caseWhen => "CaseWhen"
  | .typeCast => "TypeCast"
  | .string _ => "String"

/-- The node instance's string-typed struct fields, accessed by field name
(the generated generic pass reads `n.#field_name` directly; a name that is
not a string field of the variant reads as the empty string). -/
def stringField : NodeEnum → String → String
  | .resTarget name, f => if f = "name" then name else ""
  | .defElem defnamespace defname _, f =>
      if f = "defnamespace" then defnamespace
      else if f = "defname" then defname else ""
  | .alias aliasname, f => if f = "aliasname" then aliasname else ""
  | .windowDef name refname _ _, f =>
      if f = "name" then name else if f = "refname" then refname else ""
  | .alterTableCmd _ name, f => if f = "name" then name else ""
  | .variableSetStmt _ name, f => if f = "name" then name else ""
  | .createPolicyStmt policy_name _ _ _, f =>
      if f = "policy_name" then policy_name else ""
  | .copyStmt filename, f => if f = "filename" then filename else ""
  | .renameStmt subname newname, f =>
      if f = "subname" then subname else if f = "newname" then newname else ""
  | .constraint _ conname, f => if f = "conname" then conname else ""
  | .partitionSpec strategy, f => if f = "strategy" then strategy else ""
  | .createStmt tablespacename _ _ _, f =>
      if f = "tablespacename" then tablespacename else ""
  | .partitionBoundSpec strategy, f => if f = "strategy" then strategy else ""
  | .functionParameter name _ _, f => if f = "name" then name else ""
  | .namedArgExpr name, f => if f = "name" then name else ""
  | .string sval, f => if f = "sval" then sval else ""
  | _, _ => ""

/-- The custom rule pass (`custom_handlers` in `get_node_properties.rs`),
threaded through the `tokens` vector exactly as the generated statements
push into it; a Rust `match` over an integer discriminant is modelled as an
equality chain in pattern order, and `panic!` as `Except.error`. -/
def custom_handlers (node : NodeEnum) (tokens : List TokenProperty) :
    Except String (List TokenProperty) :=
  match node with
  | .selectStmt distinct_clause values_lists from_clause where_clause group_clause =>
    let tokens := tokens ++ [TokenProperty.fromToken .Select]
    let tokens := if distinct_clause > 0 then tokens ++ [TokenProperty.fromToken .Distinct] else tokens
    let tokens := if values_lists > 0 then tokens ++ [TokenProperty.fromToken .Values] else tokens
    let tokens := if from_clause > 0 then tokens ++ [TokenProperty.fromToken .From] else tokens
    let tokens := if where_clause then tokens ++ [TokenProperty.fromToken .Where] else tokens
    let tokens := if group_clause > 0 then
        tokens ++ [TokenProperty.fromToken .GroupP, TokenProperty.fromToken .By]
      else tokens
    .ok tokens
  | .boolExpr boolop =>
    if boolop = 1 then .ok (tokens ++ [TokenProperty.fromToken .And])
    else if boolop = 2 then .ok (tokens ++ [TokenProperty.fromToken .Or])
    else if boolop = 3 then .ok (tokens ++ [TokenProperty.fromToken .Not])
    else .error ("Unknown BoolExpr " ++ toString boolop)
  | .joinExpr jointype =>
    let tokens := tokens ++ [TokenProperty.fromToken .Join, TokenProperty.fromToken .On]
    if jointype = 1 then .ok (tokens ++ [TokenProperty.fromToken .InnerP])
    else if jointype = 2 then .ok (tokens ++ [TokenProperty.fromToken .Left])
    else if jointype = 3 then .ok (tokens ++ [TokenProperty.fromToken .Full])
    else if jointype = 4 then .ok (tokens ++ [TokenProperty.fromToken .Right])
    else .error ("Unknown JoinExpr jointype " ++ toString jointype)
  | .resTarget name =>
    .ok (if name.length > 0 then tokens ++ [TokenProperty.fromToken .As] else tokens)
  | .integer ival =>
    .ok (tokens ++ [TokenProperty.fromInteger ival])
  | .defElem _ _ defaction =>
    if defaction = 1 then .ok (tokens ++ [TokenProperty.fromToken .Ascii61])
    else .error ("Unknown DefElem " ++ toString defaction)
  | .alias _ =>
    .ok (tokens ++ [TokenProperty.fromToken .As])
  | .collateClause =>
    .ok (tokens ++ [TokenProperty.fromToken .Collate])
  | .aExpr kind =>
    if kind = 1 then .ok tokens
    else if kind = 2 then .ok (tokens ++ [TokenProperty.fromToken .Any])
    else if kind = 7 then .ok (tokens ++ [TokenProperty.fromToken .InP])
    else .error ("Unknown AExpr kind " ++ toString kind)
  | .windowDef _ _ partition_clause order_clause =>
    let tokens := if partition_clause > 0 || order_clause > 0 then
        tokens ++ [TokenProperty.fromToken .Window, TokenProperty.fromToken .As]
      else tokens
    let tokens := if partition_clause > 0 then
        tokens ++ [TokenProperty.fromToken .Partition, TokenProperty.fromToken .By]
      else tokens
    .ok tokens
  | .boolean boolval =>
    .ok (tokens ++ [TokenProperty.fromBoolean boolval])
  | .aStar =>
    .ok (tokens ++ [TokenProperty.fromToken .Ascii42])
  | .funcCall funcname args agg_filter over =>
    let tokens :=
      if funcname.length = 1 && args = 0 then
        match funcname.head? with
        | some (some (NodeRef.stringNode sval)) =>
          if sval = "count" then tokens ++ [TokenProperty.fromToken .Ascii42] else tokens
        | _ => tokens
      else tokens
    let tokens := if agg_filter then
        tokens ++ [TokenProperty.fromToken .Filter, TokenProperty.fromToken .Where]
      else tokens
    let tokens := if over then tokens ++ [TokenProperty.fromToken .Over] else tokens
    .ok tokens
  | .sqlvalueFunction op =>
    if op = 10 then .ok (tokens ++ [TokenProperty.fromToken .CurrentRole])
    else if op = 11 then .ok (tokens ++ [TokenProperty.fromToken .CurrentUser])
    else .error ("Unknown SqlvalueFunction " ++ toString op)
  | .sortBy sortby_dir =>
    let tokens := tokens ++ [TokenProperty.fromToken .Order, TokenProperty.fromToken .By]
    if sortby_dir = 2 then .ok (tokens ++ [TokenProperty.fromToken .Asc])
    else if sortby_dir = 3 then .ok (tokens ++ [TokenProperty.fromToken .Desc])
    else .ok tokens
  | .aConst isnull =>
    .ok (if isnull then tokens ++ [TokenProperty.fromToken .NullP] else tokens)
  | .alterTableStmt =>
    .ok (tokens ++ [TokenProperty.fromToken .Alter, TokenProperty.fromToken .Table])
  | .alterTableCmd subtype _ =>
    let tokens := tokens ++ [TokenProperty.fromToken .Alter]
    if subtype = 4 then
      .ok (tokens ++ [TokenProperty.fromToken .Column, TokenProperty.fromToken .Set,
        TokenProperty.fromToken .Default])
    else if subtype = 19 then .ok (tokens ++ [TokenProperty.fromToken .AddP])
    else if subtype = 30 then
      .ok (tokens ++ [TokenProperty.fromToken .Alter, TokenProperty.fromToken .Column,
        TokenProperty.fromToken .TypeP])
    else .error ("Unknown AlterTableCmd " ++ toString subtype)
  | .variableSetStmt kind _ =>
    let tokens := tokens ++ [TokenProperty.fromToken .Set]
    if kind = 1 then .ok (tokens ++ [TokenProperty.fromToken .To])
    else .error ("Unknown VariableSetStmt " ++ toString kind)
  | .createPolicyStmt _ roles qual with_check =>
    let tokens := tokens ++ [TokenProperty.fromToken .Create, TokenProperty.fromToken .Policy,
      TokenProperty.fromToken .On]
    let tokens := if roles > 0 then tokens ++ [TokenProperty.fromToken .To] else tokens
    let tokens := if qual then tokens ++ [TokenProperty.fromToken .Using] else tokens
    let tokens := if with_check then
        tokens ++ [TokenProperty.fromToken .With, TokenProperty.fromToken .Check]
      else tokens
    .ok tokens
  | .copyStmt _ =>
    .ok (tokens ++ [TokenProperty.fromToken .Copy, TokenProperty.fromToken .From])
  | .renameStmt _ _ =>
    .ok (tokens ++ [TokenProperty.fromToken .Alter, TokenProperty.fromToken .Table,
      TokenProperty.fromToken .Rename, TokenProperty.fromToken .To])
  | .constraint contype _ =>
    if contype = 2 then
      .ok (tokens ++ [TokenProperty.fromToken .Not, TokenProperty.fromToken .NullP])
    else if contype = 3 then .ok (tokens ++ [TokenProperty.fromToken .Default])
    else if contype = 6 then .ok (tokens ++ [TokenProperty.fromToken .Check])
    else if contype = 7 then
      .ok (tokens ++ [TokenProperty.fromToken .Primary, TokenProperty.fromToken .Key])
    else if contype = 10 then .ok (tokens ++ [TokenProperty.fromToken .References])
    else .error ("Unknown Constraint " ++ toString contype)
  | .partitionSpec _ =>
    .ok (tokens ++ [TokenProperty.fromToken .Partition, TokenProperty.fromToken .By])
  | .insertStmt =>
    .ok (tokens ++ [TokenProperty.fromToken .Insert, TokenProperty.fromToken .Into])
  | .deleteStmt where_clause using_clause =>
    let tokens := tokens ++ [TokenProperty.fromToken .DeleteP, TokenProperty.fromToken .From]
    let tokens := if where_clause then tokens ++ [TokenProperty.fromToken .Where] else tokens
    let tokens := if using_clause > 0 then tokens ++ [TokenProperty.fromToken .Using] else tokens
    .ok tokens
  | .viewStmt query replace =>
    let tokens := tokens ++ [TokenProperty.fromToken .Create, TokenProperty.fromToken .View]
    let tokens := if query then tokens ++ [TokenProperty.fromToken .As] else tokens
    let tokens := if replace then
        tokens ++ [TokenProperty.fromToken .Or, TokenProperty.fromToken .Replace]
      else tokens
    .ok tokens
  | .createStmt tablespacename options if_not_exists partbound =>
    let tokens := tokens ++ [TokenProperty.fromToken .Create, TokenProperty.fromToken .Table]
    let tokens := if tablespacename.length > 0 then
        tokens ++ [TokenProperty.fromToken .Tablespace]
      else tokens
    let tokens := if options > 0 then tokens ++ [TokenProperty.fromToken .With] else tokens
    let tokens := if if_not_exists then
        tokens ++ [TokenProperty.fromToken .IfP, TokenProperty.fromToken .Not,
          TokenProperty.fromToken .Exists]
      else tokens
    let tokens := if partbound then
        tokens ++ [TokenProperty.fromToken .Partition, TokenProperty.fromToken .Of,
          TokenProperty.fromToken .For, TokenProperty.fromToken .Values]
      else tokens
    .ok tokens
  | .partitionBoundSpec _ =>
    .ok (tokens ++ [TokenProperty.fromToken .From, TokenProperty.fromToken .To])
  | .caseExpr defresult =>
    let tokens := tokens ++ [TokenProperty.fromToken .Case, TokenProperty.fromToken .EndP]
    let tokens := if defresult then tokens ++ [TokenProperty.fromToken .Else] else tokens
    .ok tokens
  | .nullTest nulltesttype =>
    if nulltesttype = 1 then
      .ok (tokens ++ [TokenProperty.fromToken .Is, TokenProperty.fromToken .NullP])
    else if nulltesttype = 2 then
      .ok (tokens ++ [TokenProperty.fromToken .Is, TokenProperty.fromToken .Not,
        TokenProperty.fromToken .NullP])
    else .error ("Unknown NullTest " ++ toString nulltesttype)
  | .createFunctionStmt replace return_type =>
    let tokens := tokens ++ [TokenProperty.fromToken .Create, TokenProperty.fromToken .Function]
    let tokens := if replace then
        tokens ++ [TokenProperty.fromToken .Or, TokenProperty.fromToken .Replace]
      else tokens
    let tokens := if return_type then tokens ++ [TokenProperty.fromToken .Returns] else tokens
    .ok tokens
  | .functionParameter _ mode defexpr =>
    let matched : Except String (List TokenProperty) :=
      if mode = 1 then .ok (tokens ++ [TokenProperty.fromToken .InP])
      else if mode = 2 then .ok (tokens ++ [TokenProperty.fromToken .OutP])
      else if mode = 3 then .ok (tokens ++ [TokenProperty.fromToken .Inout])
      else if mode = 4 then .ok (tokens ++ [TokenProperty.fromToken .Variadic])
      else if mode = 6 then .ok tokens
      else .error ("Unknown FunctionParameter " ++ toString mode)
    matched.bind fun tokens =>
      .ok (if defexpr then tokens ++ [TokenProperty.fromToken .Default] else tokens)
  | .namedArgExpr _ =>
    .ok (tokens ++ [TokenProperty.fromToken .EqualsGreater])
  | .caseWhen =>
    .ok (tokens ++ [TokenProperty.fromToken .When, TokenProperty.fromToken .Then])
  | .typeCast =>
    .ok (tokens ++ [TokenProperty.fromToken .Typecast])
  | .string _ =>
    .ok tokens

/-- The generic string-field pass (`string_property_handlers`): one guarded
emission statement per non-repeated string-typed descriptor field, in
declared field order, threaded through the same `tokens` vector. -/
def string_property_pass : List Field → (String → String) → List TokenProperty →
    Except String (List TokenProperty)
  | [], _, tokens => .ok tokens
  | f :: rest, get, tokens =>
    if f.repeated then string_property_pass rest get tokens
    else
      match f.field_type with
      | .string =>
        if (get f.name).length > 0 then
          (TokenProperty.fromString (get f.name)).bind fun t =>
            string_property_pass rest get (tokens ++ [t])
        else string_property_pass rest get tokens
      | _ => string_property_pass rest get tokens

/-- `get_node_properties`: start from an empty vector, run the node's
custom rules, then the generic string-field statements generated from the
node's descriptor (`proto` maps a node-type name to its field list). -/
def get_node_properties (proto : String → List Field) (node : NodeEnum) :
    Except String (List TokenProperty) :=
  (custom_handlers node []).bind fun tokens =>
    string_property_pass (proto (nodeName node)) (stringField node) tokens

/-- Modelled from the spec: the grammar descriptor
(`crates/parser/proto/source.proto`) is external input data that is not
under `src/`; per the spec it supplies each node type's ordered field list
(name, scalar type, repeated flag).  The node types needed concretely by
the claims are modelled here; the spec's scenarios (a `BoolExpr` with
operator code 1 yields exactly the AND keyword, `select 1;` yields exactly
the SELECT keyword) fix that these node types carry no non-repeated string
fields, and `String` carries exactly its `sval` spelling. -/
def proto0 : String → List Field := fun name =>
  if name = "BoolExpr" then
    [⟨"xpr", .message, false⟩, ⟨"boolop", .enumCode, false⟩,
     ⟨"args", .message, true⟩, ⟨"location", .int32, false⟩]
  else if name = "JoinExpr" then
    [⟨"jointype", .enumCode, false⟩, ⟨"is_natural", .bool, false⟩,
     ⟨"larg", .message, false⟩, ⟨"rarg", .message, false⟩,
     ⟨"using_clause", .message, true⟩, ⟨"quals", .message, false⟩,
     ⟨"rtindex", .int32, false⟩]
  else if name = "FuncCall" then
    [⟨"funcname", .message, true⟩, ⟨"args", .message, true⟩,
     ⟨"agg_order", .message, true⟩, ⟨"agg_filter", .message, false⟩,
     ⟨"over", .message, false⟩, ⟨"agg_star", .bool, false⟩,
     ⟨"location", .int32, false⟩]
  else if name = "SortBy" then
    [⟨"node", .message, false⟩, ⟨"sortby_dir", .enumCode, false⟩,
     ⟨"sortby_nulls", .enumCode, false⟩, ⟨"use_op", .message, true⟩,
     ⟨"location", .int32, false⟩]
  else if name = "NullTest" then
    [⟨"xpr", .message, false⟩, ⟨"arg", .message, false⟩,
     ⟨"nulltesttype", .enumCode, false⟩, ⟨"argisrow", .bool, false⟩,
     ⟨"location", .int32, false⟩]
  else if name = "String" then
    [⟨"sval", .string, false⟩]
  else []

/-- The emissions of the generic pass, stated declaratively: one property
per non-repeated string-typed field with a non-empty value, in descriptor
order, spelled lower-case with no kind. -/
def generic_list (fields : List Field) (get : String → String) : List TokenProperty :=
  (fields.filter fun f =>
      !f.repeated && f.field_type == .string && decide ((get f.name).length > 0)).map
    fun f => { value := some (get f.name).toLower, kind := none }

theorem string_property_pass_eq (fields : List Field) (get : String → String)
    (tokens : List TokenProperty) :
    string_property_pass fields get tokens = .ok (tokens ++ generic_list fields get) := by
  induction fields generalizing tokens with
  | nil => simp [string_property_pass, generic_list]
  | cons f rest ih =>
    by_cases hrep : f.repeated
    · simp [string_property_pass, hrep, generic_list, List.filter_cons, ih tokens]
    · cases hft : f.field_type with
      | string =>
        by_cases hlen : (get f.name).length > 0
        · simp only [string_property_pass, hrep, if_false, hft, hlen, if_true,
            TokenProperty.fromString, Except.bind, ih]
          simp [generic_list, List.filter_cons, hrep, hft, hlen]
        · simp only [string_property_pass, hrep, if_false, hft, hlen, if_false, ih]
          simp [generic_list, List.filter_cons, hrep, hft, hlen]
      | int32 =>
        simp [string_property_pass, hrep, hft, generic_list, List.filter_cons, ih tokens]
      | int64 =>
        simp [string_property_pass, hrep, hft, generic_list, List.filter_cons, ih tokens]
      | uint32 =>
        simp [string_property_pass, hrep, hft, generic_list, List.filter_cons, ih tokens]
      | uint64 =>
        simp [string_property_pass, hrep, hft, generic_list, List.filter_cons, ih tokens]
      | float64 =>
        simp [string_property_pass, hrep, hft, generic_list, List.filter_cons, ih tokens]
      | bool =>
        simp [string_property_pass, hrep, hft, generic_list, List.filter_cons, ih tokens]
      | enumCode =>
        simp [string_property_pass, hrep, hft, generic_list, List.filter_cons, ih tokens]
      | message =>
        simp [string_property_pass, hrep, hft, generic_list, List.filter_cons, ih tokens]

theorem toLower_Foo : "Foo".toLower = "foo" := by
  have h : "Foo".toLower = String.map Char.toLower "Foo" := rfl
  rw [h, String.map_eq]
  decide

/-- C3: for every AST node instance (and any grammar descriptor), the
sequence returned by `get_node_properties` is the output of the node's
custom rule pass concatenated with the output of its generic string-field
pass, in that order — every custom-rule token precedes every generically
derived token. -/
theorem C3_custom_then_generic (proto : String → List Field) (node : NodeEnum) :
    get_node_properties proto node =
      (custom_handlers node []).bind fun c =>
        (string_property_pass (proto (nodeName node)) (stringField node) []).map
          fun g => c ++ g := by
  unfold get_node_properties
  cases h : custom_handlers node [] with
  | error e => rfl
  | ok c =>
    simp [Except.bind, Except.map,
      string_property_pass_eq (proto (nodeName node)) (stringField node)]

/-- C4: the generic field pass emits exactly one `TokenProperty` (via the
text conversion, hence lower-cased spelling) for each non-repeated
string-typed descriptor field whose value is a non-empty string, in the
descriptor's declared field order; empty-string, repeated, and non-string
fields contribute nothing.  In particular a single string field valued
`"Foo"` contributes exactly one property with spelling `"foo"`. -/
theorem C4_generic_pass (fields : List Field) (get : String → String) :
    string_property_pass fields get [] =
      .ok ((fields.filter fun f =>
              !f.repeated && f.field_type == .string &&
                decide ((get f.name).length > 0)).map
            fun f => { value := some (get f.name).toLower, kind := none }) ∧
    string_property_pass [⟨"sval", .string, false⟩] (fun _ => "Foo") [] =
      .ok [{ value := some "foo", kind := none }] := by
  constructor
  · simpa [generic_list] using
      string_property_pass_eq fields get []
  · rw [string_property_pass_eq]
    simp [generic_list, toLower_Foo, List.filter_cons, String.length]

/-- C9: constructing a `TokenProperty` with both the spelling and the kind
absent always fails; constructing one with at least one of the two present
always succeeds and returns a value whose fields equal the arguments. -/
theorem C9_new_invariant (value : Option String) (kind : Option SyntaxKind) :
    TokenProperty.new none none =
      .error "TokenProperty must have either value or kind" ∧
    (value.isSome ∨ kind.isSome →
      TokenProperty.new value kind = .ok { value := value, kind := kind }) := by
  constructor
  · rfl
  · intro h
    unfold TokenProperty.new
    have : (value.isNone && kind.isNone) = false := by
      rcases h with h | h
      · simp [Option.isSome_iff_exists] at h
        rcases h with ⟨a, rfl⟩
        rfl
      · simp [Option.isSome_iff_exists] at h
        rcases h with ⟨a, rfl⟩
        simp
    simp [this]

/-- Witness for C9 at a concrete input: a spelling-only property is built
successfully. -/
theorem C9_new_invariant_witness :
    TokenProperty.new (some "select") none =
      .ok { value := some "select", kind := none } :=
  (C9_new_invariant (some "select") none).2 (Or.inl rfl)

/-- C10: converting a non-empty text value into a `TokenProperty` yields a
spelling equal to the lower-cased text and an absent kind; converting
empty text is a fatal error. -/
theorem C10_from_string (s : String) :
    (s ≠ "" → TokenProperty.fromString s =
      .ok { value := some s.toLower, kind := none }) ∧
    TokenProperty.fromString "" = .error "String property value has length 0" := by
  constructor
  · intro h
    have hlen : s.length > 0 := by
      cases s with
      | mk data =>
        cases data with
        | nil => exact absurd rfl h
        | cons a as => simp [String.length]
    simp [TokenProperty.fromString, hlen]
  · rfl

/-- Witness for C10 at a concrete input: `"Foo"` becomes the lower-cased
spelling `"foo"` with no kind. -/
theorem C10_from_string_witness :
    TokenProperty.fromString "Foo" = .ok { value := some "foo", kind := none } := by
  have h := (C10_from_string "Foo").1 (by decide)
  rw [toLower_Foo] at h
  exact h

/-- C5: a `BoolExpr` node yields exactly the AND keyword for operator code
1, the OR keyword for 2, the NOT keyword for 3, and a coverage error
(fatal for that call) for every other `boolop` value. -/
theorem C5_boolexpr (v : Int) :
    (v = 1 → get_node_properties proto0 (.boolExpr v) =
      .ok [TokenProperty.fromToken .And]) ∧
    (v = 2 → get_node_properties proto0 (.boolExpr v) =
      .ok [TokenProperty.fromToken .Or]) ∧
    (v = 3 → get_node_properties proto0 (.boolExpr v) =
      .ok [TokenProperty.fromToken .Not]) ∧
    (v ≠ 1 → v ≠ 2 → v ≠ 3 →
      ∃ msg, get_node_properties proto0 (.boolExpr v) = .error msg) := by
  refine ⟨?_, ?_, ?_, ?_⟩
  · rintro rfl; rfl
  · rintro rfl; rfl
  · rintro rfl; rfl
  · intro h1 h2 h3
    refine ⟨"Unknown BoolExpr " ++ toString v, ?_⟩
    simp only [get_node_properties, custom_handlers]
    rw [if_neg h1, if_neg h2, if_neg h3]
    rfl

/-- Witness for C5 at concrete inputs: operator code 1 yields exactly the
AND keyword, and code 0 is a coverage error. -/
theorem C5_boolexpr_witness :
    get_node_properties proto0 (.boolExpr 1) = .ok [TokenProperty.fromToken .And] ∧
    (∃ msg, get_node_properties proto0 (.boolExpr 0) = .error msg) :=
  ⟨(C5_boolexpr 1).1 rfl,
   (C5_boolexpr 0).2.2.2 (by decide) (by decide) (by decide)⟩

theorem funcCall_pass_id (fn : List (Option NodeRef)) (args : Nat)
    (agg_filter over : Bool) (tokens : List TokenProperty) :
    string_property_pass (proto0 "FuncCall")
      (stringField (.funcCall fn args agg_filter over)) tokens = .ok tokens := by
  rw [string_property_pass_eq]
  simp [generic_list, proto0, List.filter_cons]

/-- C6: a `FuncCall` node includes the implicit wildcard-star token
(`Ascii42`) if and only if the function name list is exactly one `String`
node valued `"count"` and the argument list is empty; when emitted, the
star precedes the FILTER/WHERE and OVER keywords emitted for the node. -/
theorem C6_funccall (fn : List (Option NodeRef)) (args : Nat) (agg_filter over : Bool) :
    ∃ l, get_node_properties proto0 (.funcCall fn args agg_filter over) = .ok l ∧
      (TokenProperty.fromToken .Ascii42 ∈ l ↔
        fn = [some (NodeRef.stringNode "count")] ∧ args = 0) ∧
      l = (if fn = [some (NodeRef.stringNode "count")] ∧ args = 0 then
              [TokenProperty.fromToken .Ascii42] else []) ++
          ((if agg_filter then
              [TokenProperty.fromToken .Filter, TokenProperty.fromToken .Where] else []) ++
           (if over then [TokenProperty.fromToken .Over] else [])) := by
  have hcustom : custom_handlers (.funcCall fn args agg_filter over) [] =
      .ok ((if fn = [some (NodeRef.stringNode "count")] ∧ args = 0 then
              [TokenProperty.fromToken .Ascii42] else []) ++
          ((if agg_filter then
              [TokenProperty.fromToken .Filter, TokenProperty.fromToken .Where] else []) ++
           (if over then [TokenProperty.fromToken .Over] else []))) := by
    rcases fn with _ | ⟨r0, t⟩
    · cases over <;> cases agg_filter <;> simp [custom_handlers, List.append_assoc]
    · rcases t with _ | ⟨r1, t2⟩
      · rcases r0 with _ | nr
        · cases over <;> cases agg_filter <;> simp [custom_handlers, List.append_assoc]
        · rcases nr with sval | _
          · by_cases hs : sval = "count"
            · subst hs
              by_cases ha : args = 0
              · cases over <;> cases agg_filter <;>
                  simp [custom_handlers, ha, List.append_assoc]
              · cases over <;> cases agg_filter <;>
                  simp [custom_handlers, ha, List.append_assoc]
            · cases over <;> cases agg_filter <;>
                simp [custom_handlers, hs, List.append_assoc]
          · cases over <;> cases agg_filter <;>
              simp [custom_handlers, List.append_assoc]
      · cases over <;> cases agg_filter <;> simp [custom_handlers, List.append_assoc]
  refine ⟨_, ?_, ?_, rfl⟩
  · simp only [get_node_properties, hcustom, Except.bind]
    exact funcCall_pass_id fn args agg_filter over _
  · by_cases hP : fn = [some (NodeRef.stringNode "count")] ∧ args = 0
    · cases agg_filter <;> cases over <;> simp [hP]
    · cases agg_filter <;> cases over <;> simp [hP] <;> decide

/-- Discriminant values listed as legal in the `BoolExprType` enum listing
accompanying the `BoolExpr` rule (`AndExpr = 1`, `OrExpr = 2`,
`NotExpr = 3`). -/
def boolExpr_listed_boolops : List Int := [1, 2, 3]

/-- Discriminant values listed as legal in the `JoinType` enum listing
accompanying the `JoinExpr` rule (`JoinInner = 1` .. `JoinUniqueInner = 8`). -/
def joinExpr_listed_jointypes : List Int := [1, 2, 3, 4, 5, 6, 7, 8]

/-- Discriminant values listed as legal in the `AExprKind` enum listing
accompanying the `AExpr` rule (`AexprOp = 1` .. `AexprNotBetweenSym = 14`). -/
def aExpr_listed_kinds : List Int := [1, 2, 3, 4, 5, 6, 7, 8, 9, 10, 11, 12, 13, 14]

/-- Discriminant values listed as legal in the `SqlvalueFunctionOp` enum
listing accompanying the `SqlvalueFunction` rule (`SvfopCurrentDate = 1`
.. `SvfopCurrentSchema = 15`). -/
def sqlvalueFunction_listed_ops : List Int :=
  [1, 2, 3, 4, 5, 6, 7, 8, 9, 10, 11, 12, 13, 14, 15]

/-- Discriminant values listed in the `VariableSetKind` enum listing
accompanying the `VariableSetStmt` rule (`Undefined = 0` ..
`VarResetAll = 6`). -/
def variableSetStmt_listed_kinds : List Int := [0, 1, 2, 3, 4, 5, 6]

/-- Discriminant values listed as legal in the `FunctionParameterMode`
enum listing accompanying the `FunctionParameter` rule (`FuncParamIn = 1`
.. `FuncParamDefault = 6`). -/
def functionParameter_listed_modes : List Int := [1, 2, 3, 4, 5, 6]

/-- Discriminant values listed as legal in the `NullTestType` enum listing
accompanying the `NullTest` rule (`IsNull = 1`, `IsNotNull = 2`). -/
def nullTest_listed_types : List Int := [1, 2]

/-- Counterexample to C1: jointype 5 (`JoinSemi`) is listed as legal in the
grammar enum, yet `get_node_properties` on a `JoinExpr` carrying it reaches
the fatal coverage-error branch. -/
theorem C1_counterexample :
    (5 : Int) ∈ joinExpr_listed_jointypes ∧
    ∃ msg, get_node_properties proto0 (.joinExpr 5) = .error msg :=
  ⟨by decide, _, rfl⟩

/-- C1 as amended: only `BoolExpr` and `NullTest` cover all of their
enum-listed discriminant values; for the other discriminated node types
the rule table covers only the explicitly cased subset (`JoinExpr`
{1,2,3,4}, `AExpr` {1,2,7}, `DefElem` {1}, `SqlvalueFunction` {10,11},
`AlterTableCmd` {4,19,30}, `VariableSetStmt` {1}, `Constraint`
{2,3,6,7,10}, `FunctionParameter` {1,2,3,4,6}), and enum-listed values
outside the cased subset reach the fatal branch, as witnessed for
`JoinExpr` 5, `AExpr` 3, `SqlvalueFunction` 1, `VariableSetStmt` 2 and
`FunctionParameter` 5. -/
theorem C1_amended :
    (∃ l, get_node_properties proto0 (.boolExpr 1) = .ok l) ∧
    (∃ l, get_node_properties proto0 (.boolExpr 2) = .ok l) ∧
    (∃ l, get_node_properties proto0 (.boolExpr 3) = .ok l) ∧
    (∃ l, get_node_properties proto0 (.nullTest 1) = .ok l) ∧
    (∃ l, get_node_properties proto0 (.nullTest 2) = .ok l) ∧
    (∃ l, get_node_properties proto0 (.joinExpr 1) = .ok l) ∧
    (∃ l, get_node_properties proto0 (.joinExpr 2) = .ok l) ∧
    (∃ l, get_node_properties proto0 (.joinExpr 3) = .ok l) ∧
    (∃ l, get_node_properties proto0 (.joinExpr 4) = .ok l) ∧
    (∃ l, get_node_properties proto0 (.aExpr 1) = .ok l) ∧
    (∃ l, get_node_properties proto0 (.aExpr 2) = .ok l) ∧
    (∃ l, get_node_properties proto0 (.aExpr 7) = .ok l) ∧
    (∃ l, get_node_properties proto0 (.defElem "" "" 1) = .ok l) ∧
    (∃ l, get_node_properties proto0 (.sqlvalueFunction 10) = .ok l) ∧
    (∃ l, get_node_properties proto0 (.sqlvalueFunction 11) = .ok l) ∧
    (∃ l, get_node_properties proto0 (.alterTableCmd 4 "") = .ok l) ∧
    (∃ l, get_node_properties proto0 (.alterTableCmd 19 "") = .ok l) ∧
    (∃ l, get_node_properties proto0 (.alterTableCmd 30 "") = .ok l) ∧
    (∃ l, get_node_properties proto0 (.variableSetStmt 1 "") = .ok l) ∧
    (∃ l, get_node_properties proto0 (.constraint 2 "") = .ok l) ∧
    (∃ l, get_node_properties proto0 (.constraint 3 "") = .ok l) ∧
    (∃ l, get_node_properties proto0 (.constraint 6 "") = .ok l) ∧
    (∃ l, get_node_properties proto0 (.constraint 7 "") = .ok l) ∧
    (∃ l, get_node_properties proto0 (.constraint 10 "") = .ok l) ∧
    (∃ l, get_node_properties proto0 (.functionParameter "" 1 false) = .ok l) ∧
    (∃ l, get_node_properties proto0 (.functionParameter "" 2 false) = .ok l) ∧
    (∃ l, get_node_properties proto0 (.functionParameter "" 3 false) = .ok l) ∧
    (∃ l, get_node_properties proto0 (.functionParameter "" 4 false) = .ok l) ∧
    (∃ l, get_node_properties proto0 (.functionParameter "" 6 false) = .ok l) ∧
    ((3 : Int) ∈ aExpr_listed_kinds ∧
      ∃ msg, get_node_properties proto0 (.aExpr 3) = .error msg) ∧
    ((1 : Int) ∈ sqlvalueFunction_listed_ops ∧
      ∃ msg, get_node_properties proto0 (.sqlvalueFunction 1) = .error msg) ∧
    ((2 : Int) ∈ variableSetStmt_listed_kinds ∧
      ∃ msg, get_node_properties proto0 (.variableSetStmt 2 "") = .error msg) ∧
    ((5 : Int) ∈ functionParameter_listed_modes ∧
      ∃ msg, get_node_properties proto0 (.functionParameter "" 5 false) = .error msg) :=
  ⟨⟨_, rfl⟩, ⟨_, rfl⟩, ⟨_, rfl⟩, ⟨_, rfl⟩, ⟨_, rfl⟩, ⟨_, rfl⟩, ⟨_, rfl⟩, ⟨_, rfl⟩,
   ⟨_, rfl⟩, ⟨_, rfl⟩, ⟨_, rfl⟩, ⟨_, rfl⟩, ⟨_, rfl⟩, ⟨_, rfl⟩, ⟨_, rfl⟩, ⟨_, rfl⟩,
   ⟨_, rfl⟩, ⟨_, rfl⟩, ⟨_, rfl⟩, ⟨_, rfl⟩, ⟨_, rfl⟩, ⟨_, rfl⟩, ⟨_, rfl⟩, ⟨_, rfl⟩,
   ⟨_, rfl⟩, ⟨_, rfl⟩, ⟨_, rfl⟩, ⟨_, rfl⟩, ⟨_, rfl⟩,
   ⟨by decide, _, rfl⟩, ⟨by decide, _, rfl⟩, ⟨by decide, _, rfl⟩, ⟨by decide, _, rfl⟩⟩

/-- Counterexample to C2: the `SortBy` rule reads the `sortby_dir`
discriminant, and value 1 (`SortbyDefault`, no explicit case in the rule
table) does not fail fatally — the rule falls through to a default that
silently emits nothing beyond the unconditional ORDER BY keywords. -/
theorem C2_counterexample :
    get_node_properties proto0 (.sortBy 1) =
      .ok [TokenProperty.fromToken .Order, TokenProperty.fromToken .By] := rfl

/-- C2 as amended: every discriminant rule except `SortBy`'s fails fatally
on a discriminant value with no explicit case; the `SortBy` rule instead
falls through to a default that silently emits nothing beyond the
unconditional ORDER BY keywords. -/
theorem C2_amended :
    (∀ v : Int, v ≠ 1 → v ≠ 2 → v ≠ 3 →
      ∃ msg, get_node_properties proto0 (.boolExpr v) = .error msg) ∧
    (∀ v : Int, v ≠ 1 → v ≠ 2 → v ≠ 3 → v ≠ 4 →
      ∃ msg, get_node_properties proto0 (.joinExpr v) = .error msg) ∧
    (∀ v : Int, v ≠ 1 → v ≠ 2 → v ≠ 7 →
      ∃ msg, get_node_properties proto0 (.aExpr v) = .error msg) ∧
    (∀ (v : Int) (dns dn : String), v ≠ 1 →
      ∃ msg, get_node_properties proto0 (.defElem dns dn v) = .error msg) ∧
    (∀ v : Int, v ≠ 10 → v ≠ 11 →
      ∃ msg, get_node_properties proto0 (.sqlvalueFunction v) = .error msg) ∧
    (∀ (v : Int) (nm : String), v ≠ 4 → v ≠ 19 → v ≠ 30 →
      ∃ msg, get_node_properties proto0 (.alterTableCmd v nm) = .error msg) ∧
    (∀ (v : Int) (nm : String), v ≠ 1 →
      ∃ msg, get_node_properties proto0 (.variableSetStmt v nm) = .error msg) ∧
    (∀ (v : Int) (nm : String), v ≠ 2 → v ≠ 3 → v ≠ 6 → v ≠ 7 → v ≠ 10 →
      ∃ msg, get_node_properties proto0 (.constraint v nm) = .error msg) ∧
    (∀ v : Int, v ≠ 1 → v ≠ 2 →
      ∃ msg, get_node_properties proto0 (.nullTest v) = .error msg) ∧
    (∀ (v : Int) (nm : String) (d : Bool), v ≠ 1 → v ≠ 2 → v ≠ 3 → v ≠ 4 → v ≠ 6 →
      ∃ msg, get_node_properties proto0 (.functionParameter nm v d) = .error msg) ∧
    (∀ v : Int, v ≠ 2 → v ≠ 3 →
      get_node_properties proto0 (.sortBy v) =
        .ok [TokenProperty.fromToken .Order, TokenProperty.fromToken .By]) := by
  refine ⟨?_, ?_, ?_, ?_, ?_, ?_, ?_, ?_, ?_, ?_, ?_⟩
  · intro v h1 h2 h3
    refine ⟨"Unknown BoolExpr " ++ toString v, ?_⟩
    simp only [get_node_properties, custom_handlers]
    rw [if_neg h1, if_neg h2, if_neg h3]
    rfl
  · intro v h1 h2 h3 h4
    refine ⟨"Unknown JoinExpr jointype " ++ toString v, ?_⟩
    simp only [get_node_properties, custom_handlers]
    rw [if_neg h1, if_neg h2, if_neg h3, if_neg h4]
    rfl
  · intro v h1 h2 h3
    refine ⟨"Unknown AExpr kind " ++ toString v, ?_⟩
    simp only [get_node_properties, custom_handlers]
    rw [if_neg h1, if_neg h2, if_neg h3]
    rfl
  · intro v dns dn h1
    refine ⟨"Unknown DefElem " ++ toString v, ?_⟩
    simp only [get_node_properties, custom_handlers]
    rw [if_neg h1]
    rfl
  · intro v h1 h2
    refine ⟨"Unknown SqlvalueFunction " ++ toString v, ?_⟩
    simp only [get_node_properties, custom_handlers]
    rw [if_neg h1, if_neg h2]
    rfl
  · intro v nm h1 h2 h3
    refine ⟨"Unknown AlterTableCmd " ++ toString v, ?_⟩
    simp only [get_node_properties, custom_handlers]
    rw [if_neg h1, if_neg h2, if_neg h3]
    rfl
  · intro v nm h1
    refine ⟨"Unknown VariableSetStmt " ++ toString v, ?_⟩
    simp only [get_node_properties, custom_handlers]
    rw [if_neg h1]
    rfl
  · intro v nm h1 h2 h3 h4 h5
    refine ⟨"Unknown Constraint " ++ toString v, ?_⟩
    simp only [get_node_properties, custom_handlers]
    rw [if_neg h1, if_neg h2, if_neg h3, if_neg h4, if_neg h5]
    rfl
  · intro v h1 h2
    refine ⟨"Unknown NullTest " ++ toString v, ?_⟩
    simp only [get_node_properties, custom_handlers]
    rw [if_neg h1, if_neg h2]
    rfl
  · intro v nm d h1 h2 h3 h4 h6
    refine ⟨"Unknown FunctionParameter " ++ toString v, ?_⟩
    simp only [get_node_properties, custom_handlers]
    rw [if_neg h1, if_neg h2, if_neg h3, if_neg h4, if_neg h6]
    rfl
  · intro v h2 h3
    simp only [get_node_properties, custom_handlers]
    rw [if_neg h2, if_neg h3]
    rfl

/-- Witness for C2 as amended, at concrete uncased discriminant values:
each rule except `SortBy`'s fails fatally at value 0 (or 5 for
`FunctionParameter`), while `SortBy` at 4 silently yields only ORDER BY. -/
theorem C2_amended_witness :
    (∃ msg, get_node_properties proto0 (.boolExpr 0) = .error msg) ∧
    (∃ msg, get_node_properties proto0 (.joinExpr 0) = .error msg) ∧
    (∃ msg, get_node_properties proto0 (.aExpr 0) = .error msg) ∧
    (∃ msg, get_node_properties proto0 (.defElem "" "" 0) = .error msg) ∧
    (∃ msg, get_node_properties proto0 (.sqlvalueFunction 0) = .error msg) ∧
    (∃ msg, get_node_properties proto0 (.alterTableCmd 0 "") = .error msg) ∧
    (∃ msg, get_node_properties proto0 (.variableSetStmt 0 "") = .error msg) ∧
    (∃ msg, get_node_properties proto0 (.constraint 0 "") = .error msg) ∧
    (∃ msg, get_node_properties proto0 (.nullTest 0) = .error msg) ∧
    (∃ msg, get_node_properties proto0 (.functionParameter "" 5 false) = .error msg) ∧
    get_node_properties proto0 (.sortBy 4) =
      .ok [TokenProperty.fromToken .Order, TokenProperty.fromToken .By] := by
  obtain ⟨h1, h2, h3, h4, h5, h6, h7, h8, h9, h10, h11⟩ := C2_amended
  exact ⟨h1 0 (by decide) (by decide) (by decide),
    h2 0 (by decide) (by decide) (by decide) (by decide),
    h3 0 (by decide) (by decide) (by decide),
    h4 0 "" "" (by decide),
    h5 0 (by decide) (by decide),
    h6 0 "" (by decide) (by decide) (by decide),
    h7 0 "" (by decide),
    h8 0 "" (by decide) (by decide) (by decide) (by decide) (by decide),
    h9 0 (by decide) (by decide),
    h10 5 "" false (by decide) (by decide) (by decide) (by decide) (by decide),
    h11 4 (by decide) (by decide)⟩

/-! The Kind Registry (`syntax_kind_mod` in `lib.rs`).  The generated
`SyntaxKind` enum lists, in order: the custom structural names, the node
names not already claimed by a custom name, and the token names not
already claimed by a custom or node name (the `current_enum_names` set is
extended with the custom names, then with *all* node names, before the
token identifiers are filtered).  A `Kind` is the variant's position in
that merged list (the enum is `repr(u32)` with default discriminants). -/

/-- `custom_node_names()` in `lib.rs`: the synthetic structural kinds. -/
def custom_node_names : List String :=
  ["SourceFile", "Comment", "Whitespace", "Newline", "Tab", "Stmt"]

/-- `node_identifiers` in `lib.rs`: node names not claimed by an earlier
category. -/
def node_enum_names (customs nodes : List String) : List String :=
  nodes.filter fun n => decide (n ∉ customs)

/-- `token_identifiers` in `lib.rs`: token names not claimed by an earlier
category (custom names and *all* node names). -/
def token_enum_names (customs nodes tokens : List String) : List String :=
  tokens.filter fun t => decide (t ∉ customs ∧ t ∉ nodes)

/-- The ordered variant list of the generated `SyntaxKind` enum. -/
def merged_enum_names (customs nodes tokens : List String) : List String :=
  customs ++ (node_enum_names customs nodes ++ token_enum_names customs nodes tokens)

theorem mem_node_enum_names {customs nodes : List String} {a : String} :
    a ∈ node_enum_names customs nodes ↔ a ∈ nodes ∧ a ∉ customs := by
  simp [node_enum_names, List.mem_filter]

theorem mem_token_enum_names {customs nodes tokens : List String} {a : String} :
    a ∈ token_enum_names customs nodes tokens ↔
      a ∈ tokens ∧ (a ∉ customs ∧ a ∉ nodes) := by
  simp [token_enum_names, List.mem_filter]

/-- C7: with no within-category duplicate names, the merged classification
enumeration assigns every name exactly one `Kind` (one position in the
variant list, all positions being pairwise distinct since the list has no
duplicates); a name present in more than one category is resolved silently
by the priority synthetic > node > token, so a name in both the node list
and the token list is never entered through the token section — it keeps
the node's `Kind` (or the synthetic one when a custom name also claims it). -/
theorem C7_registry (customs nodes tokens : List String)
    (hc : customs.Nodup) (hn : nodes.Nodup) (ht : tokens.Nodup) :
    (merged_enum_names customs nodes tokens).Nodup ∧
    (∀ name, name ∈ customs ∨ name ∈ nodes ∨ name ∈ tokens →
      (merged_enum_names customs nodes tokens).count name = 1) ∧
    (∀ name, name ∈ nodes → name ∈ tokens →
      name ∉ token_enum_names customs nodes tokens ∧
      (name ∉ customs → name ∈ node_enum_names customs nodes)) := by
  have hnodup : (merged_enum_names customs nodes tokens).Nodup := by
    refine List.Nodup.append hc (List.Nodup.append (hn.filter _) (ht.filter _) ?_) ?_
    · intro a ha hb
      exact (mem_token_enum_names.mp hb).2.2 (mem_node_enum_names.mp ha).1
    · intro a ha hb
      rcases List.mem_append.mp hb with h | h
      · exact (mem_node_enum_names.mp h).2 ha
      · exact (mem_token_enum_names.mp h).2.1 ha
  refine ⟨hnodup, ?_, ?_⟩
  · intro name hmem
    refine List.count_eq_one_of_mem hnodup ?_
    by_cases hcm : name ∈ customs
    · exact List.mem_append.mpr (Or.inl hcm)
    · by_cases hnm : name ∈ nodes
      · exact List.mem_append.mpr (Or.inr (List.mem_append.mpr
          (Or.inl (mem_node_enum_names.mpr ⟨hnm, hcm⟩))))
      · rcases hmem with h | h | h
        · exact absurd h hcm
        · exact absurd h hnm
        · exact List.mem_append.mpr (Or.inr (List.mem_append.mpr
            (Or.inr (mem_token_enum_names.mpr ⟨h, hcm, hnm⟩))))
  · intro name hnm htm
    refine ⟨?_, ?_⟩
    · intro h
      exact (mem_token_enum_names.mp h).2.2 hnm
    · intro hcm
      exact mem_node_enum_names.mpr ⟨hnm, hcm⟩

/-- Witness for C7 at a concrete registry: with `"Boolean"` present in
both the node list and the token list, the merged enumeration is
duplicate-free and the colliding name is not entered through the token
section — it resolves to the node's `Kind`. -/
theorem C7_registry_witness :
    (merged_enum_names ["SourceFile"] ["SelectStmt", "Boolean"]
      ["Select", "Boolean"]).Nodup ∧
    "Boolean" ∉ token_enum_names ["SourceFile"] ["SelectStmt", "Boolean"]
      ["Select", "Boolean"] ∧
    "Boolean" ∈ node_enum_names ["SourceFile"] ["SelectStmt", "Boolean"] := by
  have h := C7_registry ["SourceFile"] ["SelectStmt", "Boolean"] ["Select", "Boolean"]
    (by decide) (by decide) (by decide)
  have hp := h.2.2 "Boolean" (by decide) (by decide)
  exact ⟨h.1, hp.1, hp.2 (by decide)⟩

/-- One token descriptor of the grammar descriptor: its name and its
numeric code (`pg_query_proto_parser::Token`). -/
structure TokenDesc where
  name : String
  value : Int
deriving DecidableEq, Repr

/-- The registered token table: the token descriptors whose names survive
priority filtering (`token_identifiers` / `token_value_literals` both
filter by `existing_enum_names`). -/
def token_registry (customs nodes : List String) (tokens : List TokenDesc) :
    List TokenDesc :=
  tokens.filter fun t => decide (t.name ∉ customs ∧ t.name ∉ nodes)

/-- `new_from_pg_query_token` in `lib.rs`: one generated match arm per
registered token, in table order, from the token's numeric code literal to
the token's `SyntaxKind` variant; the default arm panics
(`"Unknown token"`). -/
def new_from_pg_query_token (customs nodes : List String) (tokens : List TokenDesc)
    (code : Int) : Except String Nat :=
  match (token_registry customs nodes tokens).find? (fun t => t.value == code) with
  | some t =>
    .ok ((merged_enum_names customs nodes (tokens.map TokenDesc.name)).indexOf t.name)
  | none => .error "Unknown token"

theorem find?_value_self (l : List TokenDesc)
    (h : (l.map TokenDesc.value).Nodup) (t : TokenDesc) (ht : t ∈ l) :
    l.find? (fun x => x.value == t.value) = some t := by
  induction l with
  | nil => cases ht
  | cons a rest ih =>
    rw [List.map_cons, List.nodup_cons] at h
    rcases List.mem_cons.mp ht with rfl | htl
    · rw [List.find?_cons_of_pos _ (by simp)]
    · have hne : a.value ≠ t.value := by
        intro he
        exact h.1 (he ▸ List.mem_map_of_mem TokenDesc.value htl)
      rw [List.find?_cons_of_neg _ (by simp [hne])]
      exact ih h.2 htl

/-- C8: the token classifier maps the numeric code of every token in the
registered token table to that token's `Kind` (its variant position in the
merged enumeration) — assuming the registered codes are distinct, as a
grammar descriptor guarantees — and fails fatally, with no fallback
`Kind`, on every code not in the registry. -/
theorem C8_token_classifier (customs nodes : List String) (tokens : List TokenDesc)
    (hcodes : ((token_registry customs nodes tokens).map TokenDesc.value).Nodup) :
    (∀ t ∈ token_registry customs nodes tokens,
      new_from_pg_query_token customs nodes tokens t.value =
        .ok ((merged_enum_names customs nodes
          (tokens.map TokenDesc.name)).indexOf t.name)) ∧
    (∀ code : Int, code ∉ (token_registry customs nodes tokens).map TokenDesc.value →
      new_from_pg_query_token customs nodes tokens code = .error "Unknown token") := by
  constructor
  · intro t ht
    unfold new_from_pg_query_token
    rw [find?_value_self _ hcodes t ht]
  · intro code hcode
    unfold new_from_pg_query_token
    have : (token_registry customs nodes tokens).find? (fun t => t.value == code) =
        none := by
      rw [List.find?_eq_none]
      intro x hx
      simp only [beq_iff_eq]
      intro he
      exact hcode (he ▸ List.mem_map_of_mem TokenDesc.value hx)
    rw [this]

/-- Witness for C8 at a concrete token table: code 40 resolves to the
`Kind` of the token named `"Ascii40"` (position 1 of the merged
enumeration built from an empty custom and node list), and the
unregistered code 99 is a hard failure. -/
theorem C8_token_classifier_witness :
    new_from_pg_query_token [] [] [⟨"Ascii37", 37⟩, ⟨"Ascii40", 40⟩] 40 = .ok 1 ∧
    new_from_pg_query_token [] [] [⟨"Ascii37", 37⟩, ⟨"Ascii40", 40⟩] 99 =
      .error "Unknown token" := by
  have h := C8_token_classifier [] [] [⟨"Ascii37", 37⟩, ⟨"Ascii40", 40⟩] (by decide)
  exact ⟨h.1 ⟨"Ascii40", 40⟩ (by decide), h.2 99 (by decide)⟩

end PgCodegen
